import Mathlib

/-!
Shallow embedding of the salary-setting form engine
(src/admin_site/static/admin_site/scripts/salary_setting_form.js).

Modelling conventions:
- All numeric fields in the form are `type=number` inputs: the browser exposes
  their value either as the empty string (blank or unparsable content) or as a
  decimal numeral.  `parseFloat` of such a value is NaN exactly when the value
  is empty.  We model such an input as `Option Rat` (`none` = empty / NaN).
- The `order` inputs are read with `parseInt`; canonical order values are
  integers, modelled as `Option Int` on the input side.
- Text inputs are modelled as `String`; the JS `String.prototype.trim` is
  modelled by `jsTrim` (dropping whitespace at both ends).
- JS numbers are modelled as rationals; `toFixed(2)` is modelled by rounding
  half-up to a multiple of 1/100 (`round2`) and printing with `fmt2`.
-/

namespace SalaryForm

/-- Model of a `type=number` input value: empty (NaN under parseFloat) or a number. -/
abbrev NumInput := Option ℚ

/-- Model of an integer `order` input value (read via parseInt). -/
abbrev IntInput := Option ℤ

/-- JS `String.prototype.trim`: drop whitespace from both ends. -/
def jsTrim (s : String) : String :=
  String.mk (((s.data.dropWhile Char.isWhitespace).reverse.dropWhile Char.isWhitespace).reverse)

/-- Collapse runs of whitespace into a single underscore
(model of `.replace` with a one-or-more whitespace pattern). -/
def collapseWsAux : Bool → List Char → List Char
  | _, [] => []
  | prevWs, c :: rest =>
    if c.isWhitespace then
      if prevWs then collapseWsAux true rest
      else '_' :: collapseWsAux true rest
    else c :: collapseWsAux false rest

/-- Key derivation of `updateBasicComponentsJSON`:
`name.toLowerCase().replace` of whitespace runs with an underscore. -/
def normalizeKey (s : String) : String :=
  String.mk (collapseWsAux false (s.data.map Char.toLower))

/-- JS `toFixed(2)` followed by `parseFloat`: round half-up to hundredths. -/
def round2 (q : ℚ) : ℚ := (⌊q * 100 + 1/2⌋ : ℤ) / 100

/-- Two-digit zero-padded print of a natural number below 100. -/
def pad2 (n : ℕ) : String := if n < 10 then "0" ++ toString n else toString n

/-- Print an integer number of hundredths as a two-decimal numeral. -/
def fmtHundredths (n : ℤ) : String :=
  if n < 0 then "-" ++ toString ((-n).toNat / 100) ++ "." ++ pad2 ((-n).toNat % 100)
  else toString (n.toNat / 100) ++ "." ++ pad2 (n.toNat % 100)

/-- Model of JS `toFixed(2)`: two-decimal string of a number. -/
def fmt2 (q : ℚ) : String := fmtHundredths ⌊q * 100 + 1/2⌋

/-! ## Basic Components (updateBasicComponentsJSON, lines 115-158) -/

/-- One Basic Components editor row: the three input values of a
`.component-item` in `basicComponentsContainer`. -/
structure BasicItem where
  name : String
  code : String
  percentage : NumInput
deriving DecidableEq

/-- One value of the canonical Basic Components object.  The serializer
always sets `percentage`; it is an `Option` so that the spec sentence about
omitting unparsable numeric fields can be stated. -/
structure BasicEntry where
  code : String
  percentage : Option ℚ
  name : String
deriving DecidableEq

/-- The canonical Basic Components form: a JS object in insertion order. -/
abbrev BasicForm := List (String × BasicEntry)

/-- JS object property assignment `components[key] = v`: if the key exists the
value is replaced at its existing position, otherwise the pair is appended. -/
def jsInsert (m : BasicForm) (k : String) (v : BasicEntry) : BasicForm :=
  if m.any (fun p => p.1 = k) then
    m.map (fun p => if p.1 = k then (k, v) else p)
  else m ++ [(k, v)]

/-- A row is included iff trimmed name and trimmed code are both nonempty
(`if (name && code)`). -/
def basicValid (i : BasicItem) : Bool :=
  (jsTrim i.name ≠ "") && (jsTrim i.code ≠ "")

/-- Derived key of a row: normalized trimmed name. -/
def basicKey (i : BasicItem) : String := normalizeKey (jsTrim i.name)

/-- The canonical object value built for a valid row.  The percentage is
`parseFloat(value) || 0`, hence `0` when the input is empty. -/
def basicEntryOf (i : BasicItem) : BasicEntry :=
  { code := jsTrim i.code, percentage := some (i.percentage.getD 0), name := jsTrim i.name }

/-- One iteration of the `forEach` in `updateBasicComponentsJSON`: a valid row
is inserted under its derived key and its percentage added to the running
total; an invalid row is skipped. -/
def basicStep (acc : BasicForm × ℚ) (i : BasicItem) : BasicForm × ℚ :=
  if basicValid i then
    (jsInsert acc.1 (basicKey i) (basicEntryOf i), acc.2 + i.percentage.getD 0)
  else acc

/-- `updateBasicComponentsJSON`: canonical object and displayed percentage
total derived from the rows. -/
def updateBasicComponents (items : List BasicItem) : BasicForm × ℚ :=
  items.foldl basicStep ([], 0)

/-- First-match lookup in the canonical Basic Components object (JS property
read). -/
def alookup : BasicForm → String → Option BasicEntry
  | [], _ => none
  | p :: rest, k => if p.1 = k then some p.2 else alookup rest k

/-- The canonical value of the last valid row deriving a given key, if any. -/
def lastValidBasicFor (k : String) : List BasicItem → Option BasicEntry
  | [] => none
  | i :: rest =>
    match lastValidBasicFor k rest with
    | some e => some e
    | none => if basicValid i = true ∧ basicKey i = k then some (basicEntryOf i) else none

/-- Sum of the percentages of all valid rows, duplicates included. -/
def sumValidPct : List BasicItem → ℚ
  | [] => 0
  | i :: rest => (if basicValid i then i.percentage.getD 0 else 0) + sumValidPct rest

/-! ## Allowances (updateAllowancesJSON, lines 268-297) -/

/-- One Allowances editor row.  Both field subgroups (percentage/based-on and
fixed-amount) exist in the DOM at all times; `calcType` only controls which
one is displayed. -/
structure AllowanceItem where
  name : String
  active : Bool
  calcType : String
  annual : Bool
  percentage : NumInput
  basedOn : String
  fixedAmount : NumInput
deriving DecidableEq

/-- One element of the canonical Allowances array. -/
structure AllowanceEntry where
  name : String
  is_active : Bool
  calculation_type : String
  annual_only : Bool
  percentage : Option ℚ
  based_on : Option String
  fixed_amount : Option ℚ
deriving DecidableEq

/-- Serialization of one Allowances row: `return` on blank name, otherwise the
percentage group is emitted when the calculation type is `percentage` and the
fixed group otherwise. -/
def serializeAllowanceItem (i : AllowanceItem) : Option AllowanceEntry :=
  let name := jsTrim i.name
  if name = "" then none
  else
    let ct := if i.calcType = "" then "percentage" else i.calcType
    if ct = "percentage" then
      some { name := name, is_active := i.active, calculation_type := ct,
             annual_only := i.annual, percentage := i.percentage,
             based_on := if jsTrim i.basedOn = "" then none else some (jsTrim i.basedOn),
             fixed_amount := none }
    else
      some { name := name, is_active := i.active, calculation_type := ct,
             annual_only := i.annual, percentage := none, based_on := none,
             fixed_amount := i.fixedAmount }

/-- `updateAllowancesJSON`: the canonical Allowances array. -/
def updateAllowances : List AllowanceItem → List AllowanceEntry
  | [] => []
  | i :: rest =>
    match serializeAllowanceItem i with
    | none => updateAllowances rest
    | some e => e :: updateAllowances rest

/-! ## Tax Reliefs (updateReliefsJSON, lines 402-432) -/

/-- One Reliefs editor row (both field subgroups always present). -/
structure ReliefItem where
  name : String
  active : Bool
  formulaType : String
  percentage : NumInput
  basedOn : String
  fixedAmount : NumInput
deriving DecidableEq

/-- One element of the canonical Reliefs array. -/
structure ReliefEntry where
  name : String
  is_active : Bool
  formula_type : String
  percentage : Option ℚ
  based_on : Option String
  fixed_amount : Option ℚ
deriving DecidableEq

/-- Serialization of one Reliefs row: percentage-group fields unless the
formula type is `fixed`, fixed-amount field unless it is `percentage`. -/
def serializeReliefItem (i : ReliefItem) : Option ReliefEntry :=
  let name := jsTrim i.name
  if name = "" then none
  else
    let ft := if i.formulaType = "" then "percentage_plus_fixed" else i.formulaType
    some { name := name, is_active := i.active, formula_type := ft,
           percentage := if ft ≠ "fixed" then i.percentage else none,
           based_on := if ft ≠ "fixed" then
               (if jsTrim i.basedOn = "" then none else some (jsTrim i.basedOn))
             else none,
           fixed_amount := if ft ≠ "percentage" then i.fixedAmount else none }

/-- `updateReliefsJSON`: the canonical Reliefs array. -/
def updateReliefs : List ReliefItem → List ReliefEntry
  | [] => []
  | i :: rest =>
    match serializeReliefItem i with
    | none => updateReliefs rest
    | some e => e :: updateReliefs rest

/-! ## Tax Brackets (updateTaxBracketsJSON, lines 487-505) -/

/-- One Tax Brackets editor row. -/
structure BracketItem where
  limit : NumInput
  rate : NumInput
deriving DecidableEq

/-- One element of the canonical Tax Brackets array (`limit = none` models the
JSON null of an open-ended bracket). -/
structure BracketEntry where
  limit : Option ℚ
  rate : ℚ
deriving DecidableEq

/-- Serialization of one Tax Brackets row: included iff the rate parses; the
limit is null when the limit input is empty. -/
def serializeBracketItem (i : BracketItem) : Option BracketEntry :=
  match i.rate with
  | none => none
  | some r => some { limit := i.limit, rate := r }

/-- `updateTaxBracketsJSON`: the canonical Tax Brackets array. -/
def updateTaxBrackets : List BracketItem → List BracketEntry
  | [] => []
  | i :: rest =>
    match serializeBracketItem i with
    | none => updateTaxBrackets rest
    | some e => e :: updateTaxBrackets rest

/-! ## Statutory Deductions (updateStatutoryDeductionsJSON, lines 573-593) -/

/-- One Statutory Deductions editor row. -/
structure StatItem where
  name : String
  active : Bool
  percentage : NumInput
  basedOn : String
deriving DecidableEq

/-- One element of the canonical Statutory Deductions array. -/
structure StatEntry where
  name : String
  is_active : Bool
  percentage : ℚ
  based_on : String
deriving DecidableEq

/-- Serialization of one Statutory Deductions row: included iff the trimmed
name is nonempty and the percentage parses; based-on falls back to `B`. -/
def serializeStatItem (i : StatItem) : Option StatEntry :=
  match i.percentage with
  | none => none
  | some p =>
    if jsTrim i.name = "" then none
    else some { name := jsTrim i.name, is_active := i.active, percentage := p,
                based_on := if jsTrim i.basedOn = "" then "B" else jsTrim i.basedOn }

/-- `updateStatutoryDeductionsJSON`: the canonical Statutory Deductions array. -/
def updateStatutoryDeductions : List StatItem → List StatEntry
  | [] => []
  | i :: rest =>
    match serializeStatItem i with
    | none => updateStatutoryDeductions rest
    | some e => e :: updateStatutoryDeductions rest

/-! ## Other Deductions (updateOtherDeductionsJSON, lines 666-689) -/

/-- One Other Deductions editor row.  `linkedTo` is a select whose options are
the empty string, `staff_loan` and `salary_advance`. -/
structure OtherItem where
  name : String
  displayRule : String
  linkedTo : String
  order : IntInput
deriving DecidableEq

/-- One element of the canonical Other Deductions array. -/
structure OtherEntry where
  name : String
  display_rule : String
  order : ℤ
  linked_to : Option String
deriving DecidableEq

/-- Serialization of one Other Deductions row: blank name skipped, order is
`parseInt(value) || 1`, linked-to emitted only when nonempty. -/
def serializeOtherItem (i : OtherItem) : Option OtherEntry :=
  let name := jsTrim i.name
  if name = "" then none
  else
    some { name := name,
           display_rule := if i.displayRule = "" then "show_if_filled" else i.displayRule,
           order := match i.order with
             | none => 1
             | some n => if n = 0 then 1 else n,
           linked_to := if jsTrim i.linkedTo = "" then none else some (jsTrim i.linkedTo) }

/-- `updateOtherDeductionsJSON`: the canonical Other Deductions array. -/
def updateOtherDeductions : List OtherItem → List OtherEntry
  | [] => []
  | i :: rest =>
    match serializeOtherItem i with
    | none => updateOtherDeductions rest
    | some e => e :: updateOtherDeductions rest

/-! ## Income Items (updateIncomeItemsJSON, lines 752-768) -/

/-- One Income Items editor row. -/
structure IncomeItem where
  name : String
  displayRule : String
  order : IntInput
deriving DecidableEq

/-- One element of the canonical Income Items array. -/
structure IncomeEntry where
  name : String
  display_rule : String
  order : ℤ
deriving DecidableEq

/-- Serialization of one Income Items row. -/
def serializeIncomeItem (i : IncomeItem) : Option IncomeEntry :=
  let name := jsTrim i.name
  if name = "" then none
  else
    some { name := name,
           display_rule := if i.displayRule = "" then "show_if_filled" else i.displayRule,
           order := match i.order with
             | none => 1
             | some n => if n = 0 then 1 else n }

/-- `updateIncomeItemsJSON`: the canonical Income Items array. -/
def updateIncomeItems : List IncomeItem → List IncomeEntry
  | [] => []
  | i :: rest =>
    match serializeIncomeItem i with
    | none => updateIncomeItems rest
    | some e => e :: updateIncomeItems rest

/-! ## Loading rows from canonical data (addBasicComponent .. addIncomeItem)

Each `addX(data)` builds a row whose input values come from the template
literal of the corresponding function; a select whose options contain no
matching value falls back to its first option. -/

/-- `addBasicComponent(data)`, data taken from one canonical object value. -/
def loadBasicEntry (e : BasicEntry) : BasicItem :=
  { name := e.name, code := e.code, percentage := e.percentage }

/-- Default Basic Components template row (`addBasicComponent()`). -/
def defaultBasicItem : BasicItem := { name := "", code := "", percentage := none }

/-- `addAllowance(data)`: the calc-type select offers `percentage` (first) and
`fixed`; based-on falls back to `TOTAL` when falsy. -/
def loadAllowanceEntry (e : AllowanceEntry) : AllowanceItem :=
  { name := e.name,
    active := e.is_active,
    calcType := if e.calculation_type = "fixed" then "fixed" else "percentage",
    annual := e.annual_only,
    percentage := e.percentage,
    basedOn := if e.based_on.getD "" = "" then "TOTAL" else e.based_on.getD "",
    fixedAmount := e.fixed_amount }

/-- Default Allowances template row (`addAllowance()`). -/
def defaultAllowanceItem : AllowanceItem :=
  { name := "", active := true, calcType := "percentage", annual := false,
    percentage := none, basedOn := "TOTAL", fixedAmount := none }

/-- `addRelief(data)`: the formula-type select offers `percentage_plus_fixed`
(first), `percentage` and `fixed`; based-on falls back to `gross_income`. -/
def loadReliefEntry (e : ReliefEntry) : ReliefItem :=
  { name := e.name,
    active := e.is_active,
    formulaType := if e.formula_type = "percentage" then "percentage"
      else if e.formula_type = "fixed" then "fixed" else "percentage_plus_fixed",
    percentage := e.percentage,
    basedOn := if e.based_on.getD "" = "" then "gross_income" else e.based_on.getD "",
    fixedAmount := e.fixed_amount }

/-- Default Reliefs template row (`addRelief()`). -/
def defaultReliefItem : ReliefItem :=
  { name := "", active := true, formulaType := "percentage_plus_fixed",
    percentage := none, basedOn := "gross_income", fixedAmount := none }

/-- `addTaxBracket(data)`: null or undefined limit renders the empty value. -/
def loadBracketEntry (e : BracketEntry) : BracketItem :=
  { limit := e.limit, rate := some e.rate }

/-- Default Tax Brackets template row (`addTaxBracket()`). -/
def defaultBracketItem : BracketItem := { limit := none, rate := none }

/-- `addStatutoryDeduction(data)`: based-on falls back to `B`. -/
def loadStatEntry (e : StatEntry) : StatItem :=
  { name := e.name, active := e.is_active, percentage := some e.percentage,
    basedOn := if e.based_on = "" then "B" else e.based_on }

/-- Default Statutory Deductions template row (`addStatutoryDeduction()`). -/
def defaultStatItem : StatItem :=
  { name := "", active := true, percentage := none, basedOn := "B" }

/-- `addOtherDeduction(data)`: the display-rule select offers
`show_if_filled` (first) and `always_show`; the linked-to select offers the
empty string (first, selected when linked-to is falsy), `staff_loan` and
`salary_advance`; the order input renders `data?.order ?? 1`. -/
def loadOtherEntry (e : OtherEntry) : OtherItem :=
  { name := e.name,
    displayRule := if e.display_rule = "always_show" then "always_show" else "show_if_filled",
    linkedTo := match e.linked_to with
      | some l => if l = "staff_loan" ∨ l = "salary_advance" then l else ""
      | none => "",
    order := some e.order }

/-- Default Other Deductions template row (`addOtherDeduction()`). -/
def defaultOtherItem : OtherItem :=
  { name := "", displayRule := "show_if_filled", linkedTo := "", order := some 1 }

/-- `addIncomeItem(data)`. -/
def loadIncomeEntry (e : IncomeEntry) : IncomeItem :=
  { name := e.name,
    displayRule := if e.display_rule = "always_show" then "always_show" else "show_if_filled",
    order := some e.order }

/-- Default Income Items template row (`addIncomeItem()`). -/
def defaultIncomeItem : IncomeItem :=
  { name := "", displayRule := "show_if_filled", order := some 1 }

/-- Bulk load of the Basic Components section from a canonical object:
`Object.values(basicComponents).forEach(comp => addBasicComponent(comp))`. -/
def loadBasicForm (X : BasicForm) : List BasicItem :=
  X.map (fun p => loadBasicEntry p.2)

/-- Bulk load of the Allowances section from a canonical array. -/
def loadAllowancesForm (X : List AllowanceEntry) : List AllowanceItem :=
  X.map loadAllowanceEntry

/-- Bulk load of the Reliefs section from a canonical array. -/
def loadReliefsForm (X : List ReliefEntry) : List ReliefItem :=
  X.map loadReliefEntry

/-- Bulk load of the Tax Brackets section from a canonical array. -/
def loadBracketsForm (X : List BracketEntry) : List BracketItem :=
  X.map loadBracketEntry

/-- Bulk load of the Statutory Deductions section from a canonical array. -/
def loadStatForm (X : List StatEntry) : List StatItem :=
  X.map loadStatEntry

/-- Bulk load of the Other Deductions section from a canonical array. -/
def loadOtherForm (X : List OtherEntry) : List OtherItem :=
  X.map loadOtherEntry

/-- Bulk load of the Income Items section from a canonical array. -/
def loadIncomeForm (X : List IncomeEntry) : List IncomeItem :=
  X.map loadIncomeEntry

/-! ## loadExistingData (lines 781-892)

The hidden field contents are modelled by the distinctions the code makes:
string emptiness and truthiness, equality with the literal two-character
empty-object text (written here as emptyObjLit), and the result of
`JSON.parse`. -/

/-- Content of the Basic Components hidden field. -/
inductive BasicField where
  /-- The empty string (falsy; the parse uses the empty-object fallback). -/
  | missing
  /-- Exactly the two-character empty-object literal. -/
  | emptyObjLit
  /-- Nonempty, not the literal, but parsing to an object with no keys
  (for example the literal with inner whitespace). -/
  | emptyObjOther
  /-- Nonempty and `JSON.parse` throws. -/
  | malformed
  /-- Nonempty, parsing to an object whose values are `rs` in key order. -/
  | withRecords (rs : List BasicEntry)
deriving DecidableEq

/-- Content of an array-shaped hidden field. -/
inductive ArrField (α : Type) where
  /-- The empty string (the parse uses the empty-array fallback). -/
  | missing
  /-- Nonempty and `JSON.parse` throws. -/
  | malformed
  /-- Nonempty, parsing to a value that is not an array. -/
  | nonArray
  /-- Nonempty, parsing to an array of records `rs`. -/
  | parsed (rs : List α)
deriving DecidableEq

/-- Line 792: `const isEditMode = hiddenBasicComponents.value &&
hiddenBasicComponents.value !== ...empty object literal`. -/
def isEditMode : BasicField → Bool
  | .missing => false
  | .emptyObjLit => false
  | _ => true

/-- Lines 795-813: load the Basic Components section, seeding the default
template only when not in edit mode. -/
def loadBasicSection (edit : Bool) : BasicField → List BasicItem
  | .withRecords rs =>
    if rs.length > 0 then rs.map loadBasicEntry
    else if edit then [] else [defaultBasicItem]
  | .malformed => if edit then [] else [defaultBasicItem]
  | _ => if edit then [] else [defaultBasicItem]

/-- Any of the six array-section loaders in `loadExistingData`: load the
parsed records when the parse produced a nonempty array, otherwise seed the
default template only when not in edit mode. -/
def loadArrSection {α β : Type} (edit : Bool) (loadE : α → β) (dflt : β) :
    ArrField α → List β
  | .parsed rs => if rs.length > 0 then rs.map loadE else if edit then [] else [dflt]
  | .missing => if edit then [] else [dflt]
  | .nonArray => if edit then [] else [dflt]
  | .malformed => if edit then [] else [dflt]

/-- The seven hidden field contents read by `loadExistingData`. -/
structure FormFields where
  basic : BasicField
  allowances : ArrField AllowanceEntry
  reliefs : ArrField ReliefEntry
  brackets : ArrField BracketEntry
  statutory : ArrField StatEntry
  others : ArrField OtherEntry
  income : ArrField IncomeEntry

/-- Editor state after initialization: the rows of the seven sections. -/
structure FormState where
  basics : List BasicItem
  allowances : List AllowanceItem
  reliefs : List ReliefItem
  brackets : List BracketItem
  statutory : List StatItem
  others : List OtherItem
  income : List IncomeItem
deriving DecidableEq

/-- `loadExistingData`: clear all containers, compute edit mode from the Basic
Components field alone, then populate every section. -/
def loadExistingData (f : FormFields) : FormState :=
  let edit := isEditMode f.basic
  { basics := loadBasicSection edit f.basic
    allowances := loadArrSection edit loadAllowanceEntry defaultAllowanceItem f.allowances
    reliefs := loadArrSection edit loadReliefEntry defaultReliefItem f.reliefs
    brackets := loadArrSection edit loadBracketEntry defaultBracketItem f.brackets
    statutory := loadArrSection edit loadStatEntry defaultStatItem f.statutory
    others := loadArrSection edit loadOtherEntry defaultOtherItem f.others
    income := loadArrSection edit loadIncomeEntry defaultIncomeItem f.income }

/-! ## Lock Controller (isFormLocked, lines 905-922) -/

/-- The three lock signals: the form data-locked attribute value, the value of
the dedicated hidden input when that input exists, and the process-wide
global (compared with strict equality against boolean true). -/
structure LockSignals where
  datasetLocked : Option String
  lockInputValue : Option String
  windowLocked : Option Bool
deriving DecidableEq

/-- JS `toLowerCase`. -/
def jsToLower (s : String) : String := String.mk (s.data.map Char.toLower)

/-- `isFormLocked`: data-locked attribute first, then the boolean-like hidden
input, then the global flag. -/
def isFormLocked (s : LockSignals) : Bool :=
  if s.datasetLocked = some "true" then true
  else
    match s.lockInputValue with
    | some v =>
      if jsToLower v = "true" ∨ jsToLower v = "1" ∨ jsToLower v = "on" then true
      else if s.windowLocked = some true then true else false
    | none => if s.windowLocked = some true then true else false

/-! ## Submission gate (submit listener, lines 954-978) -/

/-- Outcome of the submit handler. -/
structure SubmitResult where
  allowed : Bool
  message : Option String
  stateAfter : FormState
deriving DecidableEq

/-- The user-facing error text of the gate, with the presented total between
the two fixed fragments. -/
def errorMessageFor (t : ℚ) : String :=
  "Basic salary components must total 100%. Current total: " ++ fmt2 t ++ "%"

/-- The submit listener: re-serialize every section, read the presented total
(the two-decimal text just written, parsed back), and block the submission
with an error message when the total differs from 100 by more than 0.01.
Nothing in the handler mutates any editor row. -/
def submitGate (st : FormState) : SubmitResult :=
  let total := round2 (updateBasicComponents st.basics).2
  if 1/100 < |total - 100| then
    { allowed := false, message := some (errorMessageFor total), stateAfter := st }
  else
    { allowed := true, message := none, stateAfter := st }

/-! ## Event steps used by the claims -/

/-- The calc-type change handler of an Allowances row only flips which field
subgroup is displayed and re-serializes; the row data changes only in the
select value itself. -/
def setCalcType (i : AllowanceItem) (v : String) : AllowanceItem :=
  { i with calcType := v }

/-- The formula-type change handler of a Reliefs row, likewise. -/
def setFormulaType (i : ReliefItem) (v : String) : ReliefItem :=
  { i with formulaType := v }

/-- `updateBasicComponentsJSON` as an event step: it rewrites the hidden field
and the displayed total but never adds or removes a row. -/
def basicSyncStep (items : List BasicItem) : List BasicItem × BasicForm × ℚ :=
  (items, updateBasicComponents items)

/-- `updateStatutoryDeductionsJSON` as an event step. -/
def statSyncStep (items : List StatItem) : List StatItem × List StatEntry :=
  (items, updateStatutoryDeductions items)

/-- `updateAllowancesJSON` as an event step. -/
def allowanceSyncStep (items : List AllowanceItem) :
    List AllowanceItem × List AllowanceEntry :=
  (items, updateAllowances items)

/-- `updateReliefsJSON` as an event step. -/
def reliefSyncStep (items : List ReliefItem) : List ReliefItem × List ReliefEntry :=
  (items, updateReliefs items)

/-- `updateTaxBracketsJSON` as an event step. -/
def bracketSyncStep (items : List BracketItem) :
    List BracketItem × List BracketEntry :=
  (items, updateTaxBrackets items)

/-- `updateOtherDeductionsJSON` as an event step. -/
def otherSyncStep (items : List OtherItem) : List OtherItem × List OtherEntry :=
  (items, updateOtherDeductions items)

/-- `updateIncomeItemsJSON` as an event step. -/
def incomeSyncStep (items : List IncomeItem) : List IncomeItem × List IncomeEntry :=
  (items, updateIncomeItems items)

/-! ## Well-formed canonical forms

The shapes of section 3 of the specification, including the normalizations a
canonical (serializer-produced) form satisfies: identifying text fields are
trimmed and nonempty, enum fields take the values the selects offer, object
keys equal the normalized names, and each field group required by the
record type is populated. -/

/-- A trimmed, nonempty text value. -/
abbrev WFName (s : String) : Prop := jsTrim s = s ∧ s ≠ ""

/-- Shape of one Basic Components key/value pair. -/
abbrev WFBasicEntry (k : String) (e : BasicEntry) : Prop :=
  WFName e.name ∧ WFName e.code ∧ e.percentage.isSome = true ∧ k = normalizeKey e.name

/-- Shape of the Basic Components object: unique derived keys, each the
normalized name of its value. -/
abbrev WFBasicForm (X : BasicForm) : Prop :=
  (X.map Prod.fst).Nodup ∧ ∀ p ∈ X, WFBasicEntry p.1 p.2

/-- Shape of one Allowances element: per calc type, exactly the matching
field group is populated. -/
abbrev WFAllowanceEntry (e : AllowanceEntry) : Prop :=
  WFName e.name ∧
  ((e.calculation_type = "percentage" ∧ e.percentage.isSome = true ∧
      e.based_on.isSome = true ∧ WFName (e.based_on.getD "") ∧ e.fixed_amount = none) ∨
   (e.calculation_type = "fixed" ∧ e.percentage = none ∧ e.based_on = none ∧
      e.fixed_amount.isSome = true))

/-- Shape of one Reliefs element: percentage fields present unless the formula
type is fixed, fixed field present unless it is percentage. -/
abbrev WFReliefEntry (e : ReliefEntry) : Prop :=
  WFName e.name ∧
  (e.formula_type = "percentage" ∨ e.formula_type = "fixed" ∨
    e.formula_type = "percentage_plus_fixed") ∧
  (if e.formula_type = "fixed" then e.percentage = none ∧ e.based_on = none
   else e.percentage.isSome = true ∧ e.based_on.isSome = true ∧ WFName (e.based_on.getD "")) ∧
  (if e.formula_type = "percentage" then e.fixed_amount = none
   else e.fixed_amount.isSome = true)

/-- Shape of one Statutory Deductions element. -/
abbrev WFStatEntry (e : StatEntry) : Prop := WFName e.name ∧ WFName e.based_on

/-- Shape of one Other Deductions element. -/
abbrev WFOtherEntry (e : OtherEntry) : Prop :=
  WFName e.name ∧
  (e.display_rule = "show_if_filled" ∨ e.display_rule = "always_show") ∧
  e.order ≠ 0 ∧
  (e.linked_to = none ∨ e.linked_to = some "staff_loan" ∨ e.linked_to = some "salary_advance")

/-- Shape of one Income Items element. -/
abbrev WFIncomeEntry (e : IncomeEntry) : Prop :=
  WFName e.name ∧
  (e.display_rule = "show_if_filled" ∨ e.display_rule = "always_show") ∧
  e.order ≠ 0

/-! ## Concrete example data -/

/-- An editor state whose Basic Components percentages total 90. -/
def exampleState90 : FormState :=
  { basics := [{ name := "Basic", code := "B", percentage := some 60 },
               { name := "Housing", code := "H", percentage := some 30 }],
    allowances := [], reliefs := [], brackets := [], statutory := [],
    others := [], income := [] }

/-- A well-formed canonical Basic Components object. -/
def exampleBasicForm : BasicForm :=
  [("basic", { code := "B", percentage := some 60, name := "Basic" }),
   ("housing", { code := "H", percentage := some 40, name := "Housing" })]

/-- A well-formed canonical Allowances array. -/
def exampleAllowancesForm : List AllowanceEntry :=
  [{ name := "Transport", is_active := true, calculation_type := "percentage",
     annual_only := false, percentage := some 10, based_on := some "TOTAL",
     fixed_amount := none }]

/-- A well-formed canonical Reliefs array. -/
def exampleReliefsForm : List ReliefEntry :=
  [{ name := "CRA", is_active := true, formula_type := "percentage_plus_fixed",
     percentage := some 20, based_on := some "gross_income",
     fixed_amount := some 200000 }]

/-- A canonical Tax Brackets array. -/
def exampleBracketsForm : List BracketEntry :=
  [{ limit := some 300000, rate := 7 }, { limit := none, rate := 24 }]

/-- A well-formed canonical Statutory Deductions array. -/
def exampleStatForm : List StatEntry :=
  [{ name := "Pension", is_active := true, percentage := 8, based_on := "B" }]

/-- A well-formed canonical Other Deductions array. -/
def exampleOtherForm : List OtherEntry :=
  [{ name := "Loan", display_rule := "show_if_filled", order := 1,
     linked_to := some "staff_loan" }]

/-- A well-formed canonical Income Items array. -/
def exampleIncomeForm : List IncomeEntry :=
  [{ name := "Bonus", display_rule := "always_show", order := 2 }]

/-- Hidden fields that are all empty or absent (not edit mode). -/
def exampleEmptyFields : FormFields :=
  { basic := .missing, allowances := .parsed [], reliefs := .missing,
    brackets := .parsed [], statutory := .missing, others := .parsed [],
    income := .missing }

/-- Hidden fields with Basic Components data (edit mode) but every other
field empty. -/
def exampleEditFields : FormFields :=
  { basic := .withRecords [{ code := "B", percentage := some 100, name := "Basic" }],
    allowances := .parsed [], reliefs := .missing, brackets := .parsed [],
    statutory := .missing, others := .parsed [], income := .missing }

/-! ## Helper lemmas -/

/-- Loading one well-formed Basic Components value yields a valid row that
serializes back to the same key and value. -/
theorem serialize_load_basic {k : String} {e : BasicEntry} (h : WFBasicEntry k e) :
    basicValid (loadBasicEntry e) = true ∧ basicKey (loadBasicEntry e) = k ∧
    basicEntryOf (loadBasicEntry e) = e := by
  obtain ⟨⟨hn1, hn2⟩, ⟨hc1, hc2⟩, hp, hk⟩ := h
  obtain ⟨q, hq⟩ := Option.isSome_iff_exists.mp hp
  cases e with
  | mk code percentage name =>
    simp only at hn1 hn2 hc1 hc2 hq hk
    subst hq hk
    refine ⟨?_, ?_, ?_⟩
    · simp [basicValid, loadBasicEntry, hn1, hc1, hn2, hc2]
    · simp [basicKey, loadBasicEntry, hn1]
    · simp [basicEntryOf, loadBasicEntry, hn1, hc1]

/-- Loading one well-formed Allowances element serializes back to itself. -/
theorem serialize_load_allowance {e : AllowanceEntry} (h : WFAllowanceEntry e) :
    serializeAllowanceItem (loadAllowanceEntry e) = some e := by
  obtain ⟨⟨hn1, hn2⟩, hcase⟩ := h
  cases e with
  | mk name is_active ct annual percentage based_on fixed_amount =>
    simp only at hn1 hn2
    rcases hcase with ⟨hct, hp, hb, hwb, hf⟩ | ⟨hct, hp, hb, hf⟩
    · simp only at hct hb hwb hf
      subst hct hf
      obtain ⟨b, hbeq⟩ := Option.isSome_iff_exists.mp hb
      subst hbeq
      obtain ⟨hb1, hb2⟩ := hwb
      simp only [Option.getD_some] at hb1 hb2
      simp [serializeAllowanceItem, loadAllowanceEntry, hn1, hn2, hb1, hb2]
    · simp only at hct hp hb
      subst hct hp hb
      simp [serializeAllowanceItem, loadAllowanceEntry, hn1, hn2]

/-- Loading one well-formed Reliefs element serializes back to itself. -/
theorem serialize_load_relief {e : ReliefEntry} (h : WFReliefEntry e) :
    serializeReliefItem (loadReliefEntry e) = some e := by
  obtain ⟨⟨hn1, hn2⟩, hft, hpg, hfg⟩ := h
  cases e with
  | mk name is_active ft percentage based_on fixed_amount =>
    simp only at hn1 hn2 hft hpg hfg
    rcases hft with hft | hft | hft <;> subst hft <;>
      simp only [String.reduceEq, reduceIte] at hpg hfg
    · -- percentage
      obtain ⟨hp, hb, hwb⟩ := hpg
      obtain ⟨b, hbeq⟩ := Option.isSome_iff_exists.mp hb
      subst hbeq hfg
      obtain ⟨hb1, hb2⟩ := hwb
      simp only [Option.getD_some] at hb1 hb2
      simp [serializeReliefItem, loadReliefEntry, hn1, hn2, hb1, hb2]
    · -- fixed
      obtain ⟨hp, hb⟩ := hpg
      subst hp hb
      simp [serializeReliefItem, loadReliefEntry, hn1, hn2]
    · -- percentage_plus_fixed
      obtain ⟨hp, hb, hwb⟩ := hpg
      obtain ⟨b, hbeq⟩ := Option.isSome_iff_exists.mp hb
      subst hbeq
      obtain ⟨hb1, hb2⟩ := hwb
      simp only [Option.getD_some] at hb1 hb2
      simp [serializeReliefItem, loadReliefEntry, hn1, hn2, hb1, hb2]

/-- Loading any Tax Brackets element serializes back to itself. -/
theorem serialize_load_bracket (e : BracketEntry) :
    serializeBracketItem (loadBracketEntry e) = some e := by
  cases e; rfl

/-- Loading one well-formed Statutory Deductions element serializes back to
itself. -/
theorem serialize_load_stat {e : StatEntry} (h : WFStatEntry e) :
    serializeStatItem (loadStatEntry e) = some e := by
  obtain ⟨⟨hn1, hn2⟩, hb1, hb2⟩ := h
  cases e with
  | mk name is_active percentage based_on =>
    simp only at hn1 hn2 hb1 hb2
    simp [serializeStatItem, loadStatEntry, hn1, hn2, hb1, hb2]

/-- Loading one well-formed Other Deductions element serializes back to
itself. -/
theorem serialize_load_other {e : OtherEntry} (h : WFOtherEntry e) :
    serializeOtherItem (loadOtherEntry e) = some e := by
  obtain ⟨⟨hn1, hn2⟩, hdr, hord, hlk⟩ := h
  cases e with
  | mk name display_rule ord linked_to =>
    simp only at hn1 hn2 hdr hord hlk
    have t1 : jsTrim "" = "" := by decide
    have t2 : jsTrim "staff_loan" = "staff_loan" := by decide
    have t3 : jsTrim "salary_advance" = "salary_advance" := by decide
    rcases hlk with hlk | hlk | hlk <;> subst hlk <;>
      rcases hdr with hdr | hdr <;> subst hdr <;>
      simp [serializeOtherItem, loadOtherEntry, hn1, hn2, hord, t1, t2, t3]

/-- Loading one well-formed Income Items element serializes back to itself. -/
theorem serialize_load_income {e : IncomeEntry} (h : WFIncomeEntry e) :
    serializeIncomeItem (loadIncomeEntry e) = some e := by
  obtain ⟨⟨hn1, hn2⟩, hdr, hord⟩ := h
  cases e with
  | mk name display_rule ord =>
    simp only at hn1 hn2 hdr hord
    rcases hdr with hdr | hdr <;> subst hdr <;>
      simp [serializeIncomeItem, loadIncomeEntry, hn1, hn2, hord]

/-- Inserting under a key absent from the object appends the pair. -/
theorem jsInsert_of_fresh (m : BasicForm) (k : String) (v : BasicEntry)
    (h : m.any (fun p => p.1 = k) = false) : jsInsert m k v = m ++ [(k, v)] := by
  simp [jsInsert, h]

/-- Lookup distributes over concatenation, preferring the left part. -/
theorem alookup_append (a b : BasicForm) (k : String) :
    alookup (a ++ b) k = match alookup a k with
      | some e => some e
      | none => alookup b k := by
  induction a with
  | nil => simp [alookup]
  | cons p rest ih =>
    by_cases hp : p.1 = k <;> simp [alookup, hp, ih]

/-- Rewriting the pairs of one key leaves lookups of other keys unchanged. -/
theorem alookup_map_other (m : BasicForm) {j k : String} (v : BasicEntry)
    (hjk : j ≠ k) :
    alookup (m.map (fun p => if p.1 = j then (j, v) else p)) k = alookup m k := by
  induction m with
  | nil => simp [alookup]
  | cons p rest ih =>
    by_cases hp : p.1 = j
    · simp [alookup, hp, hjk, ih]
    · by_cases hk : p.1 = k <;> simp [alookup, hp, hk, Ne.symm hjk, ih]

/-- JS object assignment: afterwards, looking up the assigned key yields the
assigned value and every other key is unchanged. -/
theorem alookup_jsInsert (m : BasicForm) (j k : String) (v : BasicEntry) :
    alookup (jsInsert m j v) k = if j = k then some v else alookup m k := by
  rw [jsInsert]
  by_cases hany : m.any (fun p => p.1 = j) = true
  · rw [if_pos hany]
    induction m with
    | nil => simp at hany
    | cons p rest ih =>
      by_cases hp : p.1 = j
      · by_cases hjk : j = k
        · subst hjk; simp [alookup, hp]
        · simp only [List.map_cons, if_pos hp, alookup, if_neg hjk]
          rw [alookup_map_other rest v hjk]
          simp [alookup, hp ▸ hjk, hjk]
      · by_cases hk : p.1 = k
        · simp only [List.map_cons, if_neg hp, alookup, if_pos hk]
          have : ¬ j = k := fun hjk => hp (hjk ▸ hk)
          simp [alookup, hk, this]
        · simp only [List.any_cons, Bool.or_eq_true, decide_eq_true_eq] at hany
          rcases hany with hany | hany
          · exact absurd hany hp
          · simp only [List.map_cons, if_neg hp, alookup, if_neg hk]
            exact ih hany
  · rw [if_neg hany, alookup_append]
    simp only [Bool.not_eq_true] at hany
    by_cases hjk : j = k
    · subst hjk
      have : alookup m j = none := by
        induction m with
        | nil => rfl
        | cons p rest ih2 =>
          simp only [List.any_cons, Bool.or_eq_false_iff, decide_eq_false_iff_not] at hany
          simp [alookup, hany.1, ih2 hany.2]
      simp [this, alookup]
    · cases halk : alookup m k <;> simp [alookup, hjk]

/-- The running total accumulated by the Basic Components serializer is the
sum over all valid rows. -/
theorem foldl_basicStep_total (items : List BasicItem) :
    ∀ acc : BasicForm × ℚ,
      (List.foldl basicStep acc items).2 = acc.2 + sumValidPct items := by
  induction items with
  | nil => intro acc; simp [sumValidPct]
  | cons i rest ih =>
    intro acc
    by_cases hv : basicValid i = true
    · simp only [List.foldl_cons, basicStep, if_pos hv, ih, sumValidPct, hv, if_true]
      ring
    · simp only [Bool.not_eq_true] at hv
      simp only [List.foldl_cons, basicStep, hv, Bool.false_eq_true, if_false, ih,
        sumValidPct]
      ring

/-- After the Basic Components serializer runs, looking up a key yields the
value of the last valid row deriving that key. -/
theorem foldl_basicStep_alookup (items : List BasicItem) :
    ∀ (acc : BasicForm × ℚ) (k : String),
      alookup (List.foldl basicStep acc items).1 k =
        match lastValidBasicFor k items with
        | some e => some e
        | none => alookup acc.1 k := by
  induction items with
  | nil => intro acc k; simp [lastValidBasicFor]
  | cons i rest ih =>
    intro acc k
    by_cases hv : basicValid i = true
    · simp only [List.foldl_cons, basicStep, if_pos hv, ih, lastValidBasicFor]
      cases hlast : lastValidBasicFor k rest with
      | some e => rfl
      | none =>
        simp only [alookup_jsInsert]
        by_cases hk : basicKey i = k
        · simp [hk, hv]
        · simp [hk, hv]
    · simp only [Bool.not_eq_true] at hv
      simp only [List.foldl_cons, basicStep, hv, Bool.false_eq_true, if_false, ih,
        lastValidBasicFor]
      cases hlast : lastValidBasicFor k rest with
      | some e => rfl
      | none => simp [hv]

/-- Loading a well-formed Basic Components object and re-serializing appends
exactly the original pairs. -/
theorem foldl_basic_load (X : BasicForm) :
    ∀ acc : BasicForm × ℚ,
      (X.map Prod.fst).Nodup →
      (∀ p ∈ X, WFBasicEntry p.1 p.2) →
      (∀ p ∈ X, acc.1.any (fun q => q.1 = p.1) = false) →
      (List.foldl basicStep acc (loadBasicForm X)).1 = acc.1 ++ X := by
  induction X with
  | nil => intro acc _ _ _; simp [loadBasicForm]
  | cons p rest ih =>
    intro acc hnd hwf hfresh
    obtain ⟨hvalid, hkey, hentry⟩ := serialize_load_basic (hwf p (by simp))
    simp only [List.map_cons, List.nodup_cons] at hnd
    obtain ⟨hnotin, hnd2⟩ := hnd
    have hstep : basicStep acc (loadBasicEntry p.2) =
        (acc.1 ++ [p], acc.2 + (loadBasicEntry p.2).percentage.getD 0) := by
      rw [basicStep, if_pos hvalid, hkey, hentry,
        jsInsert_of_fresh _ _ _ (hfresh p (by simp))]
    have hfresh2 : ∀ r ∈ rest, (acc.1 ++ [p]).any (fun q => q.1 = r.1) = false := by
      intro r hr
      have h1 := hfresh r (by simp [hr])
      have h2 : ¬ p.1 = r.1 := fun he => hnotin (by
        rw [he]; exact List.mem_map_of_mem Prod.fst hr)
      simp [List.any_append, h1, h2]
    simp only [loadBasicForm, List.map_cons, List.foldl_cons]
    rw [hstep]
    have := ih (acc.1 ++ [p], acc.2 + (loadBasicEntry p.2).percentage.getD 0) hnd2
      (fun r hr => hwf r (by simp [hr])) hfresh2
    simp only [loadBasicForm] at this
    rw [this]
    simp

/-- Round trip for the Allowances array. -/
theorem updateAllowances_load (X : List AllowanceEntry)
    (h : ∀ e ∈ X, WFAllowanceEntry e) :
    updateAllowances (loadAllowancesForm X) = X := by
  induction X with
  | nil => rfl
  | cons e rest ih =>
    simp only [loadAllowancesForm, List.map_cons, updateAllowances,
      serialize_load_allowance (h e (by simp))]
    exact congrArg (e :: ·) (ih (fun x hx => h x (by simp [hx])))

/-- Round trip for the Reliefs array. -/
theorem updateReliefs_load (X : List ReliefEntry)
    (h : ∀ e ∈ X, WFReliefEntry e) :
    updateReliefs (loadReliefsForm X) = X := by
  induction X with
  | nil => rfl
  | cons e rest ih =>
    simp only [loadReliefsForm, List.map_cons, updateReliefs,
      serialize_load_relief (h e (by simp))]
    exact congrArg (e :: ·) (ih (fun x hx => h x (by simp [hx])))

/-- Round trip for the Tax Brackets array (no shape condition needed). -/
theorem updateTaxBrackets_load (X : List BracketEntry) :
    updateTaxBrackets (loadBracketsForm X) = X := by
  induction X with
  | nil => rfl
  | cons e rest ih =>
    simp only [loadBracketsForm, List.map_cons, updateTaxBrackets,
      serialize_load_bracket e]
    exact congrArg (e :: ·) ih

/-- Round trip for the Statutory Deductions array. -/
theorem updateStatutoryDeductions_load (X : List StatEntry)
    (h : ∀ e ∈ X, WFStatEntry e) :
    updateStatutoryDeductions (loadStatForm X) = X := by
  induction X with
  | nil => rfl
  | cons e rest ih =>
    simp only [loadStatForm, List.map_cons, updateStatutoryDeductions,
      serialize_load_stat (h e (by simp))]
    exact congrArg (e :: ·) (ih (fun x hx => h x (by simp [hx])))

/-- Round trip for the Other Deductions array. -/
theorem updateOtherDeductions_load (X : List OtherEntry)
    (h : ∀ e ∈ X, WFOtherEntry e) :
    updateOtherDeductions (loadOtherForm X) = X := by
  induction X with
  | nil => rfl
  | cons e rest ih =>
    simp only [loadOtherForm, List.map_cons, updateOtherDeductions,
      serialize_load_other (h e (by simp))]
    exact congrArg (e :: ·) (ih (fun x hx => h x (by simp [hx])))

/-- Round trip for the Income Items array. -/
theorem updateIncomeItems_load (X : List IncomeEntry)
    (h : ∀ e ∈ X, WFIncomeEntry e) :
    updateIncomeItems (loadIncomeForm X) = X := by
  induction X with
  | nil => rfl
  | cons e rest ih =>
    simp only [loadIncomeForm, List.map_cons, updateIncomeItems,
      serialize_load_income (h e (by simp))]
    exact congrArg (e :: ·) (ih (fun x hx => h x (by simp [hx])))

/-- Rounding to hundredths fixes integers. -/
theorem round2_int (n : ℤ) : round2 (n : ℚ) = n := by
  rw [round2, show ((n : ℚ) * 100 + 1/2) = 1/2 + ((n * 100 : ℤ) : ℚ) by push_cast; ring,
    Int.floor_add_int, show (⌊(1/2 : ℚ)⌋ : ℤ) = 0 by norm_num [Int.floor_eq_iff]]
  push_cast
  field_simp

/-- The Basic Components percentage total of the 90-percent example state. -/
theorem exampleState90_total : (updateBasicComponents exampleState90.basics).2 = 90 := by
  rw [updateBasicComponents, foldl_basicStep_total]
  have h1 : basicValid { name := "Basic", code := "B", percentage := some 60 } = true := by
    decide
  have h2 : basicValid { name := "Housing", code := "H", percentage := some 30 } = true := by
    decide
  simp [exampleState90, sumValidPct, h1, h2]
  norm_num

/-! ## Claims -/

/-- C1: at submission time the gate re-derives the Basic Components
percentage total from the presented (two-decimal) value; whenever that total
differs from 100 by more than 0.01 the submission is blocked, no entered
data is discarded, and the error message contains the total formatted to two
decimals; otherwise the submission proceeds. -/
theorem submission_gate_total_check (st : FormState) :
    (1/100 < |round2 (updateBasicComponents st.basics).2 - 100| →
      (submitGate st).allowed = false ∧ (submitGate st).stateAfter = st ∧
      ∃ pre post, (submitGate st).message =
        some (pre ++ fmt2 (round2 (updateBasicComponents st.basics).2) ++ post)) ∧
    (¬ 1/100 < |round2 (updateBasicComponents st.basics).2 - 100| →
      (submitGate st).allowed = true ∧ (submitGate st).message = none ∧
      (submitGate st).stateAfter = st) := by
  constructor
  · intro h
    simp only [submitGate]
    rw [if_pos h]
    exact ⟨rfl, rfl, "Basic salary components must total 100%. Current total: ", "%", rfl⟩
  · intro h
    simp only [submitGate]
    rw [if_neg h]
    exact ⟨rfl, rfl, rfl⟩

/-- C1 witness: with components Basic 60 and Housing 30 the presented total
is 90.00, the submission is blocked, the state is kept, and the message
contains the formatted total. -/
theorem submission_gate_total_check_witness :
    (submitGate exampleState90).allowed = false ∧
    (submitGate exampleState90).stateAfter = exampleState90 ∧
    ∃ pre post, (submitGate exampleState90).message =
      some (pre ++ fmt2 (round2 (updateBasicComponents exampleState90.basics).2) ++ post) := by
  have h90 : round2 (updateBasicComponents exampleState90.basics).2 = 90 := by
    rw [exampleState90_total, show (90 : ℚ) = ((90 : ℤ) : ℚ) by norm_num, round2_int]
  have h : 1/100 < |round2 (updateBasicComponents exampleState90.basics).2 - 100| := by
    rw [h90, show ((90 : ℚ) - 100) = -10 by norm_num, abs_neg,
      abs_of_nonneg (by norm_num : (0:ℚ) ≤ 10)]
    norm_num
  exact (submission_gate_total_check exampleState90).1 h

/-- C2: for every well-formed canonical form matching the section shapes
(object with unique derived keys for Basic Components, arrays for the other
six sections), loading the section and re-serializing yields the same
canonical form. -/
theorem canonical_roundtrip :
    (∀ X : BasicForm, WFBasicForm X →
      (updateBasicComponents (loadBasicForm X)).1 = X) ∧
    (∀ X : List AllowanceEntry, (∀ e ∈ X, WFAllowanceEntry e) →
      updateAllowances (loadAllowancesForm X) = X) ∧
    (∀ X : List ReliefEntry, (∀ e ∈ X, WFReliefEntry e) →
      updateReliefs (loadReliefsForm X) = X) ∧
    (∀ X : List BracketEntry, updateTaxBrackets (loadBracketsForm X) = X) ∧
    (∀ X : List StatEntry, (∀ e ∈ X, WFStatEntry e) →
      updateStatutoryDeductions (loadStatForm X) = X) ∧
    (∀ X : List OtherEntry, (∀ e ∈ X, WFOtherEntry e) →
      updateOtherDeductions (loadOtherForm X) = X) ∧
    (∀ X : List IncomeEntry, (∀ e ∈ X, WFIncomeEntry e) →
      updateIncomeItems (loadIncomeForm X) = X) := by
  refine ⟨?_, updateAllowances_load, updateReliefs_load, updateTaxBrackets_load,
    updateStatutoryDeductions_load, updateOtherDeductions_load, updateIncomeItems_load⟩
  intro X hwf
  have := foldl_basic_load X ([], 0) hwf.1 hwf.2 (fun p _ => rfl)
  rw [updateBasicComponents, this]
  simp

/-- C2 witness: the round trip at concrete well-formed forms for all seven
sections. -/
theorem canonical_roundtrip_witness :
    (updateBasicComponents (loadBasicForm exampleBasicForm)).1 = exampleBasicForm ∧
    updateAllowances (loadAllowancesForm exampleAllowancesForm) = exampleAllowancesForm ∧
    updateReliefs (loadReliefsForm exampleReliefsForm) = exampleReliefsForm ∧
    updateTaxBrackets (loadBracketsForm exampleBracketsForm) = exampleBracketsForm ∧
    updateStatutoryDeductions (loadStatForm exampleStatForm) = exampleStatForm ∧
    updateOtherDeductions (loadOtherForm exampleOtherForm) = exampleOtherForm ∧
    updateIncomeItems (loadIncomeForm exampleIncomeForm) = exampleIncomeForm :=
  ⟨canonical_roundtrip.1 exampleBasicForm (by decide),
   canonical_roundtrip.2.1 exampleAllowancesForm (by decide),
   canonical_roundtrip.2.2.1 exampleReliefsForm (by decide),
   canonical_roundtrip.2.2.2.1 exampleBracketsForm,
   canonical_roundtrip.2.2.2.2.1 exampleStatForm (by decide),
   canonical_roundtrip.2.2.2.2.2.1 exampleOtherForm (by decide),
   canonical_roundtrip.2.2.2.2.2.2 exampleIncomeForm (by decide)⟩

/-- C3 counterexample: two rows with empty limit and parsable rates both
serialize, so the canonical Tax Brackets form holds two records with null
limit, refuting the at-most-one-null-limit invariant. -/
theorem tax_brackets_two_null_limits :
    updateTaxBrackets [{ limit := none, rate := some 10 }, { limit := none, rate := some 20 }] =
      [{ limit := none, rate := 10 }, { limit := none, rate := 20 }] ∧
    ¬ ((updateTaxBrackets [{ limit := none, rate := some 10 },
          { limit := none, rate := some 20 }]).countP (fun e => e.limit.isNone) ≤ 1) := by
  constructor
  · rfl
  · rw [show (updateTaxBrackets [{ limit := none, rate := some 10 },
        { limit := none, rate := some 20 }]).countP (fun e => e.limit.isNone) = 2 from rfl]
    omega

/-- C3 amended: at serialization time every included Tax Brackets record has
a rate and records with an unparsable rate are excluded (included records
keep their limit, null when the limit input is empty; the serializer places
no bound on how many records have a null limit). -/
theorem tax_brackets_rate_required (items : List BracketItem) :
    updateTaxBrackets items =
      (items.filter (fun i => i.rate.isSome)).map
        (fun i => { limit := i.limit, rate := i.rate.getD 0 }) := by
  induction items with
  | nil => rfl
  | cons i rest ih =>
    cases hr : i.rate with
    | none => simp [updateTaxBrackets, serializeBracketItem, hr, ih]
    | some r => simp [updateTaxBrackets, serializeBracketItem, hr, ih]

/-- C4 counterexample: a valid Basic Components row whose percentage input is
unparsable serializes with the percentage field present as 0, not omitted. -/
theorem basic_percentage_not_omitted :
    (updateBasicComponents [{ name := "A", code := "B", percentage := none }]).1 =
      [("a", { code := "B", percentage := some 0, name := "A" })] ∧
    some (0 : ℚ) ≠ (none : Option ℚ) := by
  exact ⟨rfl, by simp⟩

/-- C4 amended: for every record, a numeric field whose input is unparsable
is omitted from the canonical record or excludes the record, except where a
default applies: the order of Other Deductions and Income Items serializes
as 1, and the Basic Components percentage serializes as 0. -/
theorem numeric_parse_failure_defaults :
    (∀ i : BasicItem, i.percentage = none → (basicEntryOf i).percentage = some 0) ∧
    (∀ (i : AllowanceItem) (e : AllowanceEntry), i.percentage = none →
      serializeAllowanceItem i = some e → e.percentage = none) ∧
    (∀ (i : AllowanceItem) (e : AllowanceEntry), i.fixedAmount = none →
      serializeAllowanceItem i = some e → e.fixed_amount = none) ∧
    (∀ (i : ReliefItem) (e : ReliefEntry), i.percentage = none →
      serializeReliefItem i = some e → e.percentage = none) ∧
    (∀ (i : ReliefItem) (e : ReliefEntry), i.fixedAmount = none →
      serializeReliefItem i = some e → e.fixed_amount = none) ∧
    (∀ i : BracketItem, i.rate = none → serializeBracketItem i = none) ∧
    (∀ i : StatItem, i.percentage = none → serializeStatItem i = none) ∧
    (∀ (i : OtherItem) (e : OtherEntry), i.order = none →
      serializeOtherItem i = some e → e.order = 1) ∧
    (∀ (i : IncomeItem) (e : IncomeEntry), i.order = none →
      serializeIncomeItem i = some e → e.order = 1) := by
  refine ⟨?_, ?_, ?_, ?_, ?_, ?_, ?_, ?_, ?_⟩
  · intro i hp
    simp [basicEntryOf, hp]
  · intro i e hp hs
    simp only [serializeAllowanceItem] at hs
    split_ifs at hs <;>
      first
      | exact Option.noConfusion hs
      | · obtain rfl := Option.some.inj hs
          simp [hp]
  · intro i e hf hs
    simp only [serializeAllowanceItem] at hs
    split_ifs at hs <;>
      first
      | exact Option.noConfusion hs
      | · obtain rfl := Option.some.inj hs
          simp [hf]
  · intro i e hp hs
    simp only [serializeReliefItem] at hs
    split_ifs at hs <;>
      first
      | exact Option.noConfusion hs
      | · obtain rfl := Option.some.inj hs
          simp [hp]
  · intro i e hf hs
    simp only [serializeReliefItem] at hs
    split_ifs at hs <;>
      first
      | exact Option.noConfusion hs
      | · obtain rfl := Option.some.inj hs
          simp [hf]
  · intro i hr
    simp [serializeBracketItem, hr]
  · intro i hp
    simp [serializeStatItem, hp]
  · intro i e ho hs
    simp only [serializeOtherItem] at hs
    split_ifs at hs <;>
      first
      | exact Option.noConfusion hs
      | · obtain rfl := Option.some.inj hs
          simp [ho]
  · intro i e ho hs
    simp only [serializeIncomeItem] at hs
    split_ifs at hs <;>
      first
      | exact Option.noConfusion hs
      | · obtain rfl := Option.some.inj hs
          simp [ho]

/-- C4 witness: each default case evaluated at a concrete record with an
unparsable numeric input. -/
theorem numeric_parse_failure_defaults_witness :
    (basicEntryOf { name := "A", code := "B", percentage := none }).percentage = some 0 ∧
    ({ name := "A", is_active := true, calculation_type := "percentage",
       annual_only := false, percentage := none, based_on := some "TOTAL",
       fixed_amount := none } : AllowanceEntry).percentage = none ∧
    ({ name := "A", is_active := true, calculation_type := "fixed",
       annual_only := false, percentage := none, based_on := none,
       fixed_amount := none } : AllowanceEntry).fixed_amount = none ∧
    ({ name := "A", is_active := true, formula_type := "percentage",
       percentage := none, based_on := some "gross_income",
       fixed_amount := none } : ReliefEntry).percentage = none ∧
    ({ name := "A", is_active := true, formula_type := "fixed",
       percentage := none, based_on := none,
       fixed_amount := none } : ReliefEntry).fixed_amount = none ∧
    serializeBracketItem { limit := some 100, rate := none } = none ∧
    serializeStatItem
      { name := "A", active := true, percentage := none, basedOn := "B" } = none ∧
    ({ name := "A", display_rule := "show_if_filled", order := 1,
       linked_to := none } : OtherEntry).order = 1 ∧
    ({ name := "A", display_rule := "show_if_filled",
       order := 1 } : IncomeEntry).order = 1 :=
  ⟨numeric_parse_failure_defaults.1 { name := "A", code := "B", percentage := none } rfl,
   numeric_parse_failure_defaults.2.1
     { name := "A", active := true, calcType := "percentage", annual := false,
       percentage := none, basedOn := "TOTAL", fixedAmount := none } _ rfl (by decide),
   numeric_parse_failure_defaults.2.2.1
     { name := "A", active := true, calcType := "fixed", annual := false,
       percentage := none, basedOn := "TOTAL", fixedAmount := none } _ rfl (by decide),
   numeric_parse_failure_defaults.2.2.2.1
     { name := "A", active := true, formulaType := "percentage",
       percentage := none, basedOn := "gross_income", fixedAmount := none } _ rfl (by decide),
   numeric_parse_failure_defaults.2.2.2.2.1
     { name := "A", active := true, formulaType := "fixed",
       percentage := none, basedOn := "gross_income", fixedAmount := none } _ rfl (by decide),
   numeric_parse_failure_defaults.2.2.2.2.2.1 { limit := some 100, rate := none } rfl,
   numeric_parse_failure_defaults.2.2.2.2.2.2.1
     { name := "A", active := true, percentage := none, basedOn := "B" } rfl,
   numeric_parse_failure_defaults.2.2.2.2.2.2.2.1
     { name := "A", displayRule := "show_if_filled", linkedTo := "", order := none } _
     rfl (by decide),
   numeric_parse_failure_defaults.2.2.2.2.2.2.2.2
     { name := "A", displayRule := "show_if_filled", order := none } _ rfl (by decide)⟩

/-- C5: for every section, an empty or absent serialized form yields exactly
one default template row when not in edit mode, and an empty serialized form
yields zero rows in edit mode (the Basic Components field is empty in edit
mode exactly when it is nonempty text parsing to an object with no keys). -/
theorem default_seeding (f : FormFields) :
    ((f.basic = .missing ∨ f.basic = .emptyObjLit) →
      (loadExistingData f).basics = [defaultBasicItem]) ∧
    (f.basic = .emptyObjOther → (loadExistingData f).basics = []) ∧
    ((f.allowances = .missing ∨ f.allowances = .parsed []) →
      (loadExistingData f).allowances =
        (if isEditMode f.basic then [] else [defaultAllowanceItem])) ∧
    ((f.reliefs = .missing ∨ f.reliefs = .parsed []) →
      (loadExistingData f).reliefs =
        (if isEditMode f.basic then [] else [defaultReliefItem])) ∧
    ((f.brackets = .missing ∨ f.brackets = .parsed []) →
      (loadExistingData f).brackets =
        (if isEditMode f.basic then [] else [defaultBracketItem])) ∧
    ((f.statutory = .missing ∨ f.statutory = .parsed []) →
      (loadExistingData f).statutory =
        (if isEditMode f.basic then [] else [defaultStatItem])) ∧
    ((f.others = .missing ∨ f.others = .parsed []) →
      (loadExistingData f).others =
        (if isEditMode f.basic then [] else [defaultOtherItem])) ∧
    ((f.income = .missing ∨ f.income = .parsed []) →
      (loadExistingData f).income =
        (if isEditMode f.basic then [] else [defaultIncomeItem])) := by
  obtain ⟨b, al, re, br, st, ot, inc⟩ := f
  refine ⟨?_, ?_, ?_, ?_, ?_, ?_, ?_, ?_⟩ <;>
    first
    | (rintro (h | h) <;> subst h <;>
        simp [loadExistingData, loadBasicSection, loadArrSection, isEditMode])
    | (rintro h; subst h; rfl)

/-- C5 witness: with every field empty and the Basic Components field absent,
each section is seeded with exactly its default template row; with Basic
Components data present (edit mode) an empty Allowances field yields zero
rows. -/
theorem default_seeding_witness :
    (loadExistingData exampleEmptyFields).basics = [defaultBasicItem] ∧
    (loadExistingData exampleEmptyFields).allowances = [defaultAllowanceItem] ∧
    (loadExistingData exampleEmptyFields).reliefs = [defaultReliefItem] ∧
    (loadExistingData exampleEmptyFields).brackets = [defaultBracketItem] ∧
    (loadExistingData exampleEmptyFields).statutory = [defaultStatItem] ∧
    (loadExistingData exampleEmptyFields).others = [defaultOtherItem] ∧
    (loadExistingData exampleEmptyFields).income = [defaultIncomeItem] ∧
    (loadExistingData exampleEditFields).allowances = [] :=
  ⟨(default_seeding exampleEmptyFields).1 (Or.inl rfl),
   ((default_seeding exampleEmptyFields).2.2.1 (Or.inr rfl)).trans (by rfl),
   ((default_seeding exampleEmptyFields).2.2.2.1 (Or.inl rfl)).trans (by rfl),
   ((default_seeding exampleEmptyFields).2.2.2.2.1 (Or.inr rfl)).trans (by rfl),
   ((default_seeding exampleEmptyFields).2.2.2.2.2.1 (Or.inl rfl)).trans (by rfl),
   ((default_seeding exampleEmptyFields).2.2.2.2.2.2.1 (Or.inr rfl)).trans (by rfl),
   ((default_seeding exampleEmptyFields).2.2.2.2.2.2.2 (Or.inl rfl)).trans (by rfl),
   ((default_seeding exampleEditFields).2.2.1 (Or.inr rfl)).trans (by rfl)⟩

/-- C6: lock state evaluates, in order, the form data-locked flag, then the
boolean-like hidden input (values true, 1 or on, case-insensitively), then
the process-wide flag, the first present and affirmative source winning; in
particular a non-affirmative form flag with the input holding on locks. -/
theorem lock_state_precedence (s : LockSignals) :
    (isFormLocked s =
      (decide (s.datasetLocked = some "true") ||
       (match s.lockInputValue with
        | some v => decide (jsToLower v = "true" ∨ jsToLower v = "1" ∨ jsToLower v = "on")
        | none => false) ||
       decide (s.windowLocked = some true))) ∧
    (s.datasetLocked ≠ some "true" → s.lockInputValue = some "on" →
      isFormLocked s = true) := by
  obtain ⟨d, l, w⟩ := s
  constructor
  · cases l with
    | none =>
      by_cases hd : d = some "true" <;> by_cases hw : w = some true <;>
        simp [isFormLocked, hd, hw]
    | some v =>
      by_cases hd : d = some "true" <;>
        by_cases hv : (jsToLower v = "true" ∨ jsToLower v = "1" ∨ jsToLower v = "on") <;>
        by_cases hw : w = some true <;>
        simp [isFormLocked, hd, hv, hw]
  · intro hd hl
    simp only at hl
    subst hl
    have hon : jsToLower "on" = "on" := by decide
    simp [isFormLocked, hd, hon]

/-- C6 witness: form flag false, input value on, global flag false: locked. -/
theorem lock_state_precedence_witness :
    isFormLocked
      { datasetLocked := some "false", lockInputValue := some "on",
        windowLocked := some false } = true :=
  (lock_state_precedence _).2 (by decide) rfl

/-- C7: switching the calc type of an Allowances row (or the formula type of
a Reliefs row) and switching back leaves every field of the row, including
the temporarily hidden subgroup, unchanged, so the row and its canonical
form equal those before the two switches; in particular percentage 10 with
based-on TOTAL survives a percentage-fixed-percentage toggle. -/
theorem type_toggle_preserves_hidden_group (a : AllowanceItem) (v : String)
    (r : ReliefItem) (w : String) :
    setCalcType (setCalcType a v) a.calcType = a ∧
    serializeAllowanceItem (setCalcType (setCalcType a v) a.calcType) =
      serializeAllowanceItem a ∧
    (setCalcType a v).percentage = a.percentage ∧
    (setCalcType a v).basedOn = a.basedOn ∧
    (setCalcType a v).fixedAmount = a.fixedAmount ∧
    setFormulaType (setFormulaType r w) r.formulaType = r ∧
    serializeReliefItem (setFormulaType (setFormulaType r w) r.formulaType) =
      serializeReliefItem r ∧
    (setFormulaType r w).percentage = r.percentage ∧
    (setFormulaType r w).basedOn = r.basedOn ∧
    (setFormulaType r w).fixedAmount = r.fixedAmount ∧
    serializeAllowanceItem (setCalcType (setCalcType
        { name := "Transport", active := true, calcType := "percentage",
          annual := false, percentage := some 10, basedOn := "TOTAL",
          fixedAmount := none } "fixed") "percentage") =
      some { name := "Transport", is_active := true,
             calculation_type := "percentage", annual_only := false,
             percentage := some 10, based_on := some "TOTAL",
             fixed_amount := none } := by
  have h1 : setCalcType (setCalcType a v) a.calcType = a := by
    cases a; rfl
  have h2 : setFormulaType (setFormulaType r w) r.formulaType = r := by
    cases r; rfl
  exact ⟨h1, by rw [h1], rfl, rfl, rfl, h2, by rw [h2], rfl, rfl, rfl, rfl⟩

/-- A row the serializer maps to nothing contributes nothing to the
Allowances canonical form, wherever it sits. -/
theorem updateAllowances_skip (xs ys : List AllowanceItem) (a : AllowanceItem)
    (h : serializeAllowanceItem a = none) :
    updateAllowances (xs ++ a :: ys) = updateAllowances (xs ++ ys) := by
  induction xs with
  | nil => simp [updateAllowances, h]
  | cons x rest ih =>
    simp only [List.cons_append, updateAllowances, List.append_eq]
    rw [ih]

/-- A row the serializer maps to nothing contributes nothing to the Reliefs
canonical form, wherever it sits. -/
theorem updateReliefs_skip (xs ys : List ReliefItem) (r : ReliefItem)
    (h : serializeReliefItem r = none) :
    updateReliefs (xs ++ r :: ys) = updateReliefs (xs ++ ys) := by
  induction xs with
  | nil => simp [updateReliefs, h]
  | cons x rest ih =>
    simp only [List.cons_append, updateReliefs, List.append_eq]
    rw [ih]

/-- A row the serializer maps to nothing contributes nothing to the Tax
Brackets canonical form, wherever it sits. -/
theorem updateTaxBrackets_skip (xs ys : List BracketItem) (b : BracketItem)
    (h : serializeBracketItem b = none) :
    updateTaxBrackets (xs ++ b :: ys) = updateTaxBrackets (xs ++ ys) := by
  induction xs with
  | nil => simp [updateTaxBrackets, h]
  | cons x rest ih =>
    simp only [List.cons_append, updateTaxBrackets, List.append_eq]
    rw [ih]

/-- A row the serializer maps to nothing contributes nothing to the Other
Deductions canonical form, wherever it sits. -/
theorem updateOtherDeductions_skip (xs ys : List OtherItem) (o : OtherItem)
    (h : serializeOtherItem o = none) :
    updateOtherDeductions (xs ++ o :: ys) = updateOtherDeductions (xs ++ ys) := by
  induction xs with
  | nil => simp [updateOtherDeductions, h]
  | cons x rest ih =>
    simp only [List.cons_append, updateOtherDeductions, List.append_eq]
    rw [ih]

/-- A row the serializer maps to nothing contributes nothing to the Income
Items canonical form, wherever it sits. -/
theorem updateIncomeItems_skip (xs ys : List IncomeItem) (i : IncomeItem)
    (h : serializeIncomeItem i = none) :
    updateIncomeItems (xs ++ i :: ys) = updateIncomeItems (xs ++ ys) := by
  induction xs with
  | nil => simp [updateIncomeItems, h]
  | cons x rest ih =>
    simp only [List.cons_append, updateIncomeItems, List.append_eq]
    rw [ih]

/-- C8: in every section, a row missing a required identifying field (Basic
Components with blank trimmed name or code; Statutory Deductions with blank
name or unparsable percentage; Allowances, Reliefs, Other Deductions and
Income Items with blank name; Tax Brackets with unparsable rate) contributes
nothing to the canonical form, while the serialization step leaves every
row, including that one, in place. -/
theorem excluded_rows_remain_in_store :
    (∀ (xs ys : List BasicItem) (r : BasicItem),
      (jsTrim r.name = "" ∨ jsTrim r.code = "") →
      updateBasicComponents (xs ++ r :: ys) = updateBasicComponents (xs ++ ys) ∧
      (basicSyncStep (xs ++ r :: ys)).1 = xs ++ r :: ys) ∧
    (∀ (xs ys : List StatItem) (s : StatItem),
      (jsTrim s.name = "" ∨ s.percentage = none) →
      updateStatutoryDeductions (xs ++ s :: ys) = updateStatutoryDeductions (xs ++ ys) ∧
      (statSyncStep (xs ++ s :: ys)).1 = xs ++ s :: ys) ∧
    (∀ (xs ys : List AllowanceItem) (a : AllowanceItem),
      jsTrim a.name = "" →
      updateAllowances (xs ++ a :: ys) = updateAllowances (xs ++ ys) ∧
      (allowanceSyncStep (xs ++ a :: ys)).1 = xs ++ a :: ys) ∧
    (∀ (xs ys : List ReliefItem) (r : ReliefItem),
      jsTrim r.name = "" →
      updateReliefs (xs ++ r :: ys) = updateReliefs (xs ++ ys) ∧
      (reliefSyncStep (xs ++ r :: ys)).1 = xs ++ r :: ys) ∧
    (∀ (xs ys : List BracketItem) (b : BracketItem),
      b.rate = none →
      updateTaxBrackets (xs ++ b :: ys) = updateTaxBrackets (xs ++ ys) ∧
      (bracketSyncStep (xs ++ b :: ys)).1 = xs ++ b :: ys) ∧
    (∀ (xs ys : List OtherItem) (o : OtherItem),
      jsTrim o.name = "" →
      updateOtherDeductions (xs ++ o :: ys) = updateOtherDeductions (xs ++ ys) ∧
      (otherSyncStep (xs ++ o :: ys)).1 = xs ++ o :: ys) ∧
    (∀ (xs ys : List IncomeItem) (i : IncomeItem),
      jsTrim i.name = "" →
      updateIncomeItems (xs ++ i :: ys) = updateIncomeItems (xs ++ ys) ∧
      (incomeSyncStep (xs ++ i :: ys)).1 = xs ++ i :: ys) := by
  refine ⟨?_, ?_, ?_, ?_, ?_, ?_, ?_⟩
  · intro xs ys r h
    have hv : ¬ basicValid r = true := by
      rcases h with h | h <;> simp [basicValid, h]
    refine ⟨?_, rfl⟩
    rw [updateBasicComponents, updateBasicComponents, List.foldl_append,
      List.foldl_append, List.foldl_cons, basicStep, if_neg hv]
  · intro xs ys s h
    have hs : serializeStatItem s = none := by
      rcases h with h | h
      · cases hp : s.percentage <;> simp [serializeStatItem, h, hp]
      · simp [serializeStatItem, h]
    refine ⟨?_, rfl⟩
    induction xs with
    | nil => simp [updateStatutoryDeductions, hs]
    | cons x rest ih =>
      simp only [List.cons_append, updateStatutoryDeductions, List.append_eq]
      rw [ih]
  · intro xs ys a h
    exact ⟨updateAllowances_skip xs ys a (by simp [serializeAllowanceItem, h]), rfl⟩
  · intro xs ys r h
    exact ⟨updateReliefs_skip xs ys r (by simp [serializeReliefItem, h]), rfl⟩
  · intro xs ys b h
    exact ⟨updateTaxBrackets_skip xs ys b (by simp [serializeBracketItem, h]), rfl⟩
  · intro xs ys o h
    exact ⟨updateOtherDeductions_skip xs ys o (by simp [serializeOtherItem, h]), rfl⟩
  · intro xs ys i h
    exact ⟨updateIncomeItems_skip xs ys i (by simp [serializeIncomeItem, h]), rfl⟩

/-- C8 witness: in each of the seven sections, a concrete row missing its
required identifying field (blank code, empty percentage input, blank names,
empty rate input) is excluded from the canonical form yet remains in the
store. -/
theorem excluded_rows_remain_in_store_witness :
    updateBasicComponents [{ name := "Basic", code := "", percentage := some 50 }] =
      updateBasicComponents [] ∧
    (basicSyncStep [{ name := "Basic", code := "", percentage := some 50 }]).1 =
      [{ name := "Basic", code := "", percentage := some 50 }] ∧
    updateStatutoryDeductions
      [{ name := "NHF", active := true, percentage := none, basedOn := "B" }] =
      updateStatutoryDeductions [] ∧
    (statSyncStep [{ name := "NHF", active := true, percentage := none, basedOn := "B" }]).1 =
      [{ name := "NHF", active := true, percentage := none, basedOn := "B" }] ∧
    updateAllowances
      [{ name := "", active := true, calcType := "percentage", annual := false,
         percentage := some 5, basedOn := "TOTAL", fixedAmount := none }] =
      updateAllowances [] ∧
    (allowanceSyncStep
      [{ name := "", active := true, calcType := "percentage", annual := false,
         percentage := some 5, basedOn := "TOTAL", fixedAmount := none }]).1 =
      [{ name := "", active := true, calcType := "percentage", annual := false,
         percentage := some 5, basedOn := "TOTAL", fixedAmount := none }] ∧
    updateReliefs
      [{ name := "", active := true, formulaType := "fixed", percentage := none,
         basedOn := "gross_income", fixedAmount := some 1000 }] =
      updateReliefs [] ∧
    (reliefSyncStep
      [{ name := "", active := true, formulaType := "fixed", percentage := none,
         basedOn := "gross_income", fixedAmount := some 1000 }]).1 =
      [{ name := "", active := true, formulaType := "fixed", percentage := none,
         basedOn := "gross_income", fixedAmount := some 1000 }] ∧
    updateTaxBrackets [{ limit := some 300000, rate := none }] =
      updateTaxBrackets [] ∧
    (bracketSyncStep [{ limit := some 300000, rate := none }]).1 =
      [{ limit := some 300000, rate := none }] ∧
    updateOtherDeductions
      [{ name := "", displayRule := "show_if_filled", linkedTo := "", order := some 1 }] =
      updateOtherDeductions [] ∧
    (otherSyncStep
      [{ name := "", displayRule := "show_if_filled", linkedTo := "", order := some 1 }]).1 =
      [{ name := "", displayRule := "show_if_filled", linkedTo := "", order := some 1 }] ∧
    updateIncomeItems
      [{ name := "", displayRule := "show_if_filled", order := some 1 }] =
      updateIncomeItems [] ∧
    (incomeSyncStep
      [{ name := "", displayRule := "show_if_filled", order := some 1 }]).1 =
      [{ name := "", displayRule := "show_if_filled", order := some 1 }] := by
  have h1 := excluded_rows_remain_in_store.1 [] []
    { name := "Basic", code := "", percentage := some 50 } (Or.inr (by decide))
  have h2 := excluded_rows_remain_in_store.2.1 [] []
    { name := "NHF", active := true, percentage := none, basedOn := "B" } (Or.inr rfl)
  have h3 := excluded_rows_remain_in_store.2.2.1 [] []
    { name := "", active := true, calcType := "percentage", annual := false,
      percentage := some 5, basedOn := "TOTAL", fixedAmount := none } (by decide)
  have h4 := excluded_rows_remain_in_store.2.2.2.1 [] []
    { name := "", active := true, formulaType := "fixed", percentage := none,
      basedOn := "gross_income", fixedAmount := some 1000 } (by decide)
  have h5 := excluded_rows_remain_in_store.2.2.2.2.1 [] []
    { limit := some 300000, rate := none } rfl
  have h6 := excluded_rows_remain_in_store.2.2.2.2.2.1 [] []
    { name := "", displayRule := "show_if_filled", linkedTo := "", order := some 1 }
    (by decide)
  have h7 := excluded_rows_remain_in_store.2.2.2.2.2.2 [] []
    { name := "", displayRule := "show_if_filled", order := some 1 } (by decide)
  exact ⟨h1.1, h1.2, h2.1, h2.2, h3.1, h3.2, h4.1, h4.2, h5.1, h5.2, h6.1, h6.2,
    h7.1, h7.2⟩

/-- C9: edit mode is computed at initialization solely from the Basic
Components field (nonempty text other than the empty-object literal), so for
every other section an empty serialized form produces the default template
row or nothing according to the Basic Components field, independent of the
content of the sections own field. -/
theorem edit_mode_from_basic_field (f : FormFields) :
    (isEditMode f.basic =
      (decide (f.basic ≠ .missing) && decide (f.basic ≠ .emptyObjLit))) ∧
    ((f.allowances = .missing ∨ f.allowances = .parsed []) →
      (loadExistingData f).allowances =
        (if f.basic = .missing ∨ f.basic = .emptyObjLit
         then [defaultAllowanceItem] else [])) ∧
    ((f.reliefs = .missing ∨ f.reliefs = .parsed []) →
      (loadExistingData f).reliefs =
        (if f.basic = .missing ∨ f.basic = .emptyObjLit
         then [defaultReliefItem] else [])) ∧
    ((f.brackets = .missing ∨ f.brackets = .parsed []) →
      (loadExistingData f).brackets =
        (if f.basic = .missing ∨ f.basic = .emptyObjLit
         then [defaultBracketItem] else [])) ∧
    ((f.statutory = .missing ∨ f.statutory = .parsed []) →
      (loadExistingData f).statutory =
        (if f.basic = .missing ∨ f.basic = .emptyObjLit
         then [defaultStatItem] else [])) ∧
    ((f.others = .missing ∨ f.others = .parsed []) →
      (loadExistingData f).others =
        (if f.basic = .missing ∨ f.basic = .emptyObjLit
         then [defaultOtherItem] else [])) ∧
    ((f.income = .missing ∨ f.income = .parsed []) →
      (loadExistingData f).income =
        (if f.basic = .missing ∨ f.basic = .emptyObjLit
         then [defaultIncomeItem] else [])) := by
  obtain ⟨b, al, re, br, st, ot, inc⟩ := f
  refine ⟨by cases b <;> rfl, ?_, ?_, ?_, ?_, ?_, ?_⟩ <;>
    (rintro (h | h) <;> subst h <;> cases b <;>
      simp [loadExistingData, loadArrSection, isEditMode])

/-- C9 witness: with identical empty Allowances fields, the section gets the
default row when the Basic Components field is absent and zero rows when it
holds records. -/
theorem edit_mode_from_basic_field_witness :
    (loadExistingData exampleEmptyFields).allowances = [defaultAllowanceItem] ∧
    (loadExistingData exampleEditFields).allowances = [] ∧
    exampleEmptyFields.allowances = exampleEditFields.allowances :=
  ⟨((edit_mode_from_basic_field exampleEmptyFields).2.1 (Or.inr rfl)).trans (by rfl),
   ((edit_mode_from_basic_field exampleEditFields).2.1 (Or.inr rfl)).trans (by rfl),
   rfl⟩

/-- C10: when several valid Basic Components rows derive the same key, the
canonical object keeps, at each key, only the value of the last such row,
while the reported percentage total sums over all valid rows including the
overwritten ones. -/
theorem duplicate_keys_last_wins_total_sums_all (items : List BasicItem) (k : String) :
    alookup (updateBasicComponents items).1 k = lastValidBasicFor k items ∧
    (updateBasicComponents items).2 = sumValidPct items := by
  constructor
  · rw [updateBasicComponents, foldl_basicStep_alookup]
    cases h : lastValidBasicFor k items <;> simp [alookup]
  · rw [updateBasicComponents, foldl_basicStep_total]
    simp

end SalaryForm
